import Mathlib

/-!
Shallow embedding of the SAM Recovery Intelligence engine (`src/app.py`,
with fixture data from `src/templateGenerator.py`), covering the alert
classifier `generate_alert`, the zone classifier `get_zone_status`, the
metric accessor `safe_get_value`, and the genetic annotator built in the
`genetic_insights` block.

Modelling conventions:
  * Python floats become `ℚ`; all comparisons in the source are exact
    threshold comparisons, so rationals model them faithfully.
  * A pandas cell that is missing or NaN becomes `none : Option ℚ`.
  * A `datetime.time` value becomes minutes after midnight (`ℕ`);
    Python compares times lexicographically by (hour, minute), which
    agrees with comparison of minutes after midnight.
  * A history `df` (rows ordered by ascending date) becomes `List Obs`;
    `df.iloc[-1]` is the head of the reversed list and `df.iloc[-2]` the
    second element of the reversed list.
  * Cause strings that interpolate metric values (Python f-strings) are
    modelled by a `Cause` datum carrying exactly the interpolated values;
    titles and recommendations are constant strings copied from source.
  * Python exceptions are modelled with `Except`: a computation that may
    fault is an `Except (List Char) α` and the source's `try/except`
    boundary is a total function consuming it.
-/

namespace BIGenetics

/-- One day's biometric readings for one athlete: the columns of the
`biometric_daily` sheet that `generate_alert` in `src/app.py` reads.
`none` models a missing column or a NaN cell; `some v` a recorded value.
`sleep_onset_time` is a time of day in minutes after midnight. -/
structure Obs where
  hrv_night : Option ℚ := none
  resting_hr : Option ℚ := none
  temp_trend_c : Option ℚ := none
  spo2_night : Option ℚ := none
  deep_sleep_pct : Option ℚ := none
  rem_sleep_pct : Option ℚ := none
  sleep_duration_h : Option ℚ := none
  resp_rate_night : Option ℚ := none
  sleep_onset_time : Option ℕ := none
deriving DecidableEq, Repr

/-- `safe_get_value` (src/app.py:239-247): return the stored value unless
the column is missing or the cell is NaN, in which case the default. -/
def safe_get_value (v : Option ℚ) (default : ℚ) : ℚ :=
  v.getD default

/-- The `type` field of the dictionaries returned by `generate_alert`
(src/app.py:249-341): one of the literal strings "no_data",
"inflammation", "circadian", "nutrition", "airway", "green", "error". -/
inductive AlertType where
  | no_data
  | inflammation
  | circadian
  | nutrition
  | airway
  | green
  | error
deriving DecidableEq, Repr

/-- The `cause` field of an alert.  The source builds it as an f-string;
each constructor carries exactly the metric values the corresponding
f-string interpolates (src/app.py:302,310,317,324), and `error_msg`
carries `str(e)[:50]`, the fault description truncated to 50 characters
(src/app.py:339). -/
inductive Cause where
  | no_data_msg
  | inflammation_vals (hrv rhr temp spo2 : ℚ)
  | circadian_vals (deep : ℚ) (onset : Option ℕ)
  | nutrition_vals (rem : ℚ)
  | airway_vals (spo2 resp : ℚ)
  | green_msg
  | error_msg (desc : List Char)
deriving DecidableEq, Repr

/-- The alert record returned by `generate_alert`. -/
structure Alert where
  type : AlertType
  title : String
  cause : Cause
  recommendation : String
deriving DecidableEq, Repr

/-- `hrv_drop` (src/app.py:279,282): with a previous observation, the
relative test `(prev - latest) / prev > 0.15` guarded by `prev > 0`
(`False` otherwise); with no previous observation, the absolute test
`latest < 40`.  Metric values default per `safe_get_value` calls at
src/app.py:263,276. -/
def hrv_drop (prev? : Option Obs) (latest : Obs) : Bool :=
  let hrv_night := safe_get_value latest.hrv_night 50
  match prev? with
  | some prev =>
      let prev_hrv := safe_get_value prev.hrv_night 50
      if prev_hrv > 0 then decide ((prev_hrv - hrv_night) / prev_hrv > 0.15)
      else false
  | none => decide (hrv_night < 40)

/-- `rhr_rise` (src/app.py:280,283): with a previous observation, the
relative test `(latest - prev) / prev > 0.05` guarded by `prev > 0`
(`False` otherwise); with no previous observation, the absolute test
`latest > 70`. -/
def rhr_rise (prev? : Option Obs) (latest : Obs) : Bool :=
  let resting_hr := safe_get_value latest.resting_hr 60
  match prev? with
  | some prev =>
      let prev_rhr := safe_get_value prev.resting_hr 60
      if prev_rhr > 0 then decide ((resting_hr - prev_rhr) / prev_rhr > 0.05)
      else false
  | none => decide (resting_hr > 70)

/-- `temp_high` (src/app.py:286): latest core temperature at least 37.0. -/
def temp_high (latest : Obs) : Bool :=
  decide (safe_get_value latest.temp_trend_c 36.5 ≥ 37.0)

/-- `spo2_low` (src/app.py:287): latest blood oxygen at most 94. -/
def spo2_low (latest : Obs) : Bool :=
  decide (safe_get_value latest.spo2_night 97 ≤ 94)

/-- `deep_low` (src/app.py:288): latest deep-sleep percentage below 17. -/
def deep_low (latest : Obs) : Bool :=
  decide (safe_get_value latest.deep_sleep_pct 20 < 17)

/-- `rem_low` (src/app.py:289): latest REM-sleep percentage below 16. -/
def rem_low (latest : Obs) : Bool :=
  decide (safe_get_value latest.rem_sleep_pct 20 < 16)

/-- `sleep_short` (src/app.py:290): latest sleep duration below 7 hours
(computed by the source, not used by any alert rule). -/
def sleep_short (latest : Obs) : Bool :=
  decide (safe_get_value latest.sleep_duration_h 8 < 7.0)

/-- `resp_high` (src/app.py:291): latest respiratory rate at least 17. -/
def resp_high (latest : Obs) : Bool :=
  decide (safe_get_value latest.resp_rate_night 15 ≥ 17)

/-- `sleep_late` (src/app.py:294-295): an onset time is present and is
strictly later than 23:30 (= 1410 minutes after midnight). -/
def sleep_late (latest : Obs) : Bool :=
  match latest.sleep_onset_time with
  | some t => decide (t > 1410)
  | none => false

/-- The body of `generate_alert` on a non-empty history
(src/app.py:260-333): the ordered if/elif rule chain, evaluated on the
latest observation (and the previous one, when present, through the
trend flags). -/
def generate_alert_body (prev? : Option Obs) (latest : Obs) : Alert :=
  let hrv_night := safe_get_value latest.hrv_night 50
  let resting_hr := safe_get_value latest.resting_hr 60
  let temp_trend_c := safe_get_value latest.temp_trend_c 36.5
  let spo2_night := safe_get_value latest.spo2_night 97
  let deep_sleep_pct := safe_get_value latest.deep_sleep_pct 20
  let rem_sleep_pct := safe_get_value latest.rem_sleep_pct 20
  let resp_rate_night := safe_get_value latest.resp_rate_night 15
  if hrv_drop prev? latest && rhr_rise prev? latest && temp_high latest && spo2_low latest then
    { type := .inflammation
      title := "⚠️ Inflammation/Illness Risk"
      cause := .inflammation_vals hrv_night resting_hr temp_trend_c spo2_night
      recommendation := "Prioritize rest, hydration, anti-inflammatory nutrition. Monitor temperature closely." }
  else if hrv_drop prev? latest && deep_low latest && sleep_late latest then
    { type := .circadian
      title := "🌙 Circadian Misalignment"
      cause := .circadian_vals deep_sleep_pct latest.sleep_onset_time
      recommendation := "Advance bedtime by 45min, increase morning light exposure, avoid screens after 9PM." }
  else if hrv_drop prev? latest && rem_low latest && !temp_high latest then
    { type := .nutrition
      title := "🥗 Possible Nutrient Gap"
      cause := .nutrition_vals rem_sleep_pct
      recommendation := "Check iron, magnesium, omega-3, B12 status. Increase nutrient-dense foods." }
  else if spo2_low latest && resp_high latest then
    { type := .airway
      title := "🌬️ Airway/Respiratory Stress"
      cause := .airway_vals spo2_night resp_rate_night
      recommendation := "Evaluate sleep environment, nasal breathing. Consider air quality assessment." }
  else
    { type := .green
      title := "🟢 Optimal Recovery State"
      cause := .green_msg
      recommendation := "Maintain current training and recovery protocols." }

/-- `generate_alert` (src/app.py:249-341) on well-formed inputs: empty
history returns the no-data alert; otherwise the rule chain runs on the
latest observation (`df.iloc[-1]`) with the previous one (`df.iloc[-2]`)
available to the trend flags when the history has at least two rows.
The genotype dictionary parameter is accepted, as in the source, and
never read. -/
def generate_alert (athlete_id : String) (df : List Obs)
    (genetic_dict : List (String × String)) : Alert :=
  match df.reverse with
  | [] =>
      { type := .no_data
        title := "📊 No Data"
        cause := .no_data_msg
        recommendation := "Please ensure data collection is active." }
  | latest :: rest => generate_alert_body rest.head? latest

/-- The alert returned by the `except` handler of `generate_alert`
(src/app.py:335-341): category `error`, cause carrying `str(e)[:50]`. -/
def analysis_error_alert (e : List Char) : Alert :=
  { type := .error
    title := "❌ Analysis Error"
    cause := .error_msg (e.take 50)
    recommendation := "Check data quality and try refreshing the dashboard." }

/-- The `try/except` boundary of `generate_alert`: a fallible evaluation
result is returned as-is when it succeeds, and converted by
`analysis_error_alert` when it faults. -/
def generate_alert_caught (r : Except (List Char) Alert) : Alert :=
  match r with
  | .ok a => a
  | .error e => analysis_error_alert e

/-- The status strings returned by `get_zone_status` (src/app.py:199-237):
"⚪ No Data", "⚪ No Config", "🔴 Red", "🟡 Yellow", "🟢 Green",
"⚪ Unknown", "⚪ Error". -/
inductive Zone where
  | noData
  | noConfig
  | red
  | yellow
  | green
  | unknown
  | error
deriving DecidableEq, Repr

/-- One row of the `sam_metrics_config` sheet, as read by
`get_zone_status`: per-band bound columns, each possibly missing or NaN
(both modelled as `none`). -/
structure ThresholdRow where
  metric_name : String
  red_low : Option ℚ := none
  red_high : Option ℚ := none
  red_low2 : Option ℚ := none
  red_high2 : Option ℚ := none
  yellow_low : Option ℚ := none
  yellow_high : Option ℚ := none
  yellow_low2 : Option ℚ := none
  yellow_high2 : Option ℚ := none
  green_low : Option ℚ := none
  green_high : Option ℚ := none
deriving DecidableEq, Repr

/-- The per-range test of the loops in `get_zone_status`
(src/app.py:216-217,225-226,231): both bounds present (not missing, not
NaN) and `low <= value <= high` inclusively. -/
def in_bounds (v : ℚ) (lo hi : Option ℚ) : Bool :=
  match lo, hi with
  | some l, some h => decide (l ≤ v ∧ v ≤ h)
  | _, _ => false

/-- `get_zone_status` (src/app.py:199-237) on well-formed inputs: NaN
value gives no-data; a metric with no config row gives no-config;
otherwise the first matching row is checked against the primary red
range, the secondary red range (only considered when `red_low2` is
present), then the yellow ranges likewise, then the single green range,
returning the first band whose range contains the value, and unknown
when none does. -/
def get_zone_status (value : Option ℚ) (metric_name : String)
    (thresholds : List ThresholdRow) : Zone :=
  match value with
  | none => .noData
  | some v =>
    match (thresholds.filter (fun r => r.metric_name == metric_name)).head? with
    | none => .noConfig
    | some row =>
      if in_bounds v row.red_low row.red_high then .red
      else if row.red_low2.isSome && in_bounds v row.red_low2 row.red_high2 then .red
      else if in_bounds v row.yellow_low row.yellow_high then .yellow
      else if row.yellow_low2.isSome && in_bounds v row.yellow_low2 row.yellow_high2 then .yellow
      else if in_bounds v row.green_low row.green_high then .green
      else .unknown

/-- The `try/except` boundary of `get_zone_status` (src/app.py:236-237):
any fault during zone evaluation yields the "⚪ Error" status. -/
def get_zone_status_caught (r : Except (List Char) Zone) : Zone :=
  match r with
  | .ok z => z
  | .error _ => .error

/-- One entry of the `genetic_insights` list built at src/app.py:717-754:
a gene label, a trait, and a recommendation. -/
structure GeneticInsight where
  gene : String
  trait : String
  recommendation : String
deriving DecidableEq, Repr

/-- `genetic_dict.get(key)`: first-match lookup in an association list,
modelling a Python dict built by insertion. -/
def dict_get (genetic_dict : List (String × String)) (key : String) : Option String :=
  (genetic_dict.find? (fun p => p.1 == key)).map (fun p => p.2)

/-- The PER3 long-variant entry appended at src/app.py:721-726. -/
def per3_long_insight : GeneticInsight :=
  { gene := "PER3 (Long variant)"
    trait := "Natural night owl tendency"
    recommendation := "Allow later bedtimes when possible, prioritize consistent wake times, use bright light therapy in morning" }

/-- The PER3 short-variant entry appended at src/app.py:727-732. -/
def per3_short_insight : GeneticInsight :=
  { gene := "PER3 (Short variant)"
    trait := "Natural early bird tendency"
    recommendation := "Optimize early morning training, avoid late evening intense exercise, maintain regular early bedtime" }

/-- The CLOCK AA entry appended at src/app.py:735-740. -/
def clock_aa_insight : GeneticInsight :=
  { gene := "CLOCK (AA genotype)"
    trait := "Enhanced circadian sensitivity"
    recommendation := "Maintain strict sleep schedule, minimize blue light exposure 2h before bed, prioritize sleep environment optimization" }

/-- The ACTN3 XX entry appended at src/app.py:743-748. -/
def actn3_xx_insight : GeneticInsight :=
  { gene := "ACTN3 (XX genotype)"
    trait := "Enhanced endurance capacity"
    recommendation := "Focus on aerobic base building, longer recovery periods between high-intensity sessions, emphasize mitochondrial health" }

/-- The ACTN3 RR entry appended at src/app.py:749-754. -/
def actn3_rr_insight : GeneticInsight :=
  { gene := "ACTN3 (RR genotype)"
    trait := "Enhanced power/sprint capacity"
    recommendation := "Optimize explosive training, shorter but more intense sessions, focus on neuromuscular recovery" }

/-- The genetic annotator (src/app.py:717-754): the `genetic_insights`
list is built by three sequential gene checks — PER3 (long, elif short),
then CLOCK (AA), then ACTN3 (XX, elif RR) — each appending at most one
entry when the genotype matches its recognized label. -/
def genetic_insights (genetic_dict : List (String × String)) : List GeneticInsight :=
  (if dict_get genetic_dict "PER3" = some "long" then [per3_long_insight]
   else if dict_get genetic_dict "PER3" = some "short" then [per3_short_insight]
   else [])
  ++ (if dict_get genetic_dict "CLOCK" = some "AA" then [clock_aa_insight]
      else [])
  ++ (if dict_get genetic_dict "ACTN3" = some "XX" then [actn3_xx_insight]
      else if dict_get genetic_dict "ACTN3" = some "RR" then [actn3_rr_insight]
      else [])

/-! Spec-side definitions, written from the wording of the specification
for comparison with the source-derived functions above. -/

/-- First-match-wins evaluation of an ordered rule list, with `green`
("optimal") as the exhaustive fallback — the evaluation discipline the
specification describes for the alert classifier. -/
def first_match : List (Bool × AlertType) → AlertType
  | [] => .green
  | (b, t) :: rest => if b then t else first_match rest

/-- The alert classifier as the specification words it: empty history is
no-data; otherwise the ordered rules inflammation, circadian, nutrition,
airway are evaluated first-match-wins over the flags, with optimal as
fallback. -/
def classify_spec (df : List Obs) : AlertType :=
  match df.reverse with
  | [] => .no_data
  | latest :: rest =>
    let p := rest.head?
    first_match
      [ (hrv_drop p latest && rhr_rise p latest && temp_high latest && spo2_low latest,
          .inflammation),
        (hrv_drop p latest && deep_low latest && sleep_late latest, .circadian),
        (hrv_drop p latest && rem_low latest && !temp_high latest, .nutrition),
        (spo2_low latest && resp_high latest, .airway) ]

/-- The ranges of one colour band: a bound pair counts as a range only
when both bounds are defined. -/
def band_ranges (lo hi lo2 hi2 : Option ℚ) : List (ℚ × ℚ) :=
  (match lo, hi with
   | some l, some h => [(l, h)]
   | _, _ => [])
  ++ (match lo2, hi2 with
      | some l, some h => [(l, h)]
      | _, _ => [])

/-- All critical (red) ranges of a row, primary then secondary. -/
def critical_ranges (row : ThresholdRow) : List (ℚ × ℚ) :=
  band_ranges row.red_low row.red_high row.red_low2 row.red_high2

/-- All caution (yellow) ranges of a row, primary then secondary. -/
def caution_ranges (row : ThresholdRow) : List (ℚ × ℚ) :=
  band_ranges row.yellow_low row.yellow_high row.yellow_low2 row.yellow_high2

/-- The single optimal (green) range of a row, when both bounds exist. -/
def optimal_ranges (row : ThresholdRow) : List (ℚ × ℚ) :=
  band_ranges row.green_low row.green_high none none

/-- The zone classifier as the specification words it: evaluate all
critical ranges first, then all caution ranges, then the optimal range,
each as inclusive [low, high] bounds, returning the band of the first
group containing the value, and unknown when no configured range does. -/
def zone_spec (v : ℚ) (row : ThresholdRow) : Zone :=
  if (critical_ranges row).any (fun p => decide (p.1 ≤ v ∧ v ≤ p.2)) then .red
  else if (caution_ranges row).any (fun p => decide (p.1 ≤ v ∧ v ≤ p.2)) then .yellow
  else if (optimal_ranges row).any (fun p => decide (p.1 ≤ v ∧ v ≤ p.2)) then .green
  else .unknown

/-- The recognized gene/genotype pairs of the genetic annotator, as the
specification lists them: PER3 long or short, CLOCK AA, ACTN3 XX or RR;
any other pair is not recognized. -/
def recognized_insight (gene genotype : String) : Option GeneticInsight :=
  if gene = "PER3" then
    if genotype = "long" then some per3_long_insight
    else if genotype = "short" then some per3_short_insight
    else none
  else if gene = "CLOCK" then
    if genotype = "AA" then some clock_aa_insight else none
  else if gene = "ACTN3" then
    if genotype = "XX" then some actn3_xx_insight
    else if genotype = "RR" then some actn3_rr_insight
    else none
  else none

/-- The genetic annotator as the specification words it: walk the fixed
gene-check order PER3, CLOCK, ACTN3 and emit the recognized annotation,
if any, for the genotype found in the map. -/
def annotate_spec (genetic_dict : List (String × String)) : List GeneticInsight :=
  ["PER3", "CLOCK", "ACTN3"].filterMap
    (fun k => (dict_get genetic_dict k).bind (fun lab => recognized_insight k lab))

/-! Concrete fixtures used by example-based claims. -/

/-- The first (earlier) observation of the worked inflammation example:
hrv 80, rhr 55, temp 36.6, spo2 98, all other metrics absent. -/
def inflammation_example_prev : Obs :=
  { hrv_night := some 80, resting_hr := some 55
    temp_trend_c := some 36.6, spo2_night := some 98 }

/-- The second (latest) observation of the worked inflammation example:
hrv 55, rhr 60, temp 37.2, spo2 93, all other metrics absent. -/
def inflammation_example_latest : Obs :=
  { hrv_night := some 55, resting_hr := some 60
    temp_trend_c := some 37.2, spo2_night := some 93 }

/-- The `rem_sleep_pct` row of `metrics_config`
(src/templateGenerator.py:235): green 20-25, yellow 16-19 and 26-30,
red 0-15 and 31-100. -/
def rem_sleep_pct_row : ThresholdRow :=
  { metric_name := "rem_sleep_pct"
    green_low := some 20, green_high := some 25
    yellow_low := some 16, yellow_high := some 19
    red_low := some 0, red_high := some 15
    yellow_low2 := some 26, yellow_high2 := some 30
    red_low2 := some 31, red_high2 := some 100 }

/-- A previous observation with zero HRV and zero resting heart rate,
exercising the `prev > 0` guards of the trend flags. -/
def zero_prev_obs : Obs :=
  { hrv_night := some 0, resting_hr := some 0 }

/-- A latest observation with HRV 30 (below the absolute threshold 40)
and resting heart rate 80 (above the absolute threshold 70). -/
def low_hrv_high_rhr_obs : Obs :=
  { hrv_night := some 30, resting_hr := some 80 }

/-! Helper lemmas shared by the claim theorems. -/

/-- A band's range list contains a value exactly when the primary or the
secondary in-bounds test succeeds. -/
theorem band_ranges_any (v : ℚ) (lo hi lo2 hi2 : Option ℚ) :
    (band_ranges lo hi lo2 hi2).any (fun p => decide (p.1 ≤ v ∧ v ≤ p.2))
      = (in_bounds v lo hi || in_bounds v lo2 hi2) := by
  cases lo <;> cases hi <;> cases lo2 <;> cases hi2 <;> simp [band_ranges, in_bounds]

/-- The `isSome` guard on a secondary range is redundant: the in-bounds
test already fails on an absent low bound. -/
theorem isSome_and_in_bounds (v : ℚ) (lo hi : Option ℚ) :
    (lo.isSome && in_bounds v lo hi) = in_bounds v lo hi := by
  cases lo <;> simp [in_bounds]

/-- Filtering an explicit three-element key list collects the per-key
optional results in order. -/
theorem filterMap_three {α β : Type} (f : α → Option β) (a b c : α) :
    [a, b, c].filterMap f = (f a).toList ++ (f b).toList ++ (f c).toList := by
  rcases ha : f a <;> rcases hb : f b <;> rcases hc : f c <;>
    simp [List.filterMap_cons, ha, hb, hc]

/-- The PER3 stage of the spec-side annotator, as an if-chain over the
genotype looked up for PER3. -/
theorem per3_stage (o : Option String) :
    (o.bind (recognized_insight "PER3")).toList
      = (if o = some "long" then [per3_long_insight]
         else if o = some "short" then [per3_short_insight] else []) := by
  rcases o with _ | s
  · simp
  · by_cases h1 : s = "long"
    · simp [h1, recognized_insight]
    · by_cases h2 : s = "short" <;> simp [h1, h2, recognized_insight]

/-- The CLOCK stage of the spec-side annotator, as an if-chain over the
genotype looked up for CLOCK. -/
theorem clock_stage (o : Option String) :
    (o.bind (recognized_insight "CLOCK")).toList
      = (if o = some "AA" then [clock_aa_insight] else []) := by
  rcases o with _ | s
  · simp
  · by_cases h1 : s = "AA" <;> simp [h1, recognized_insight]

/-- The ACTN3 stage of the spec-side annotator, as an if-chain over the
genotype looked up for ACTN3. -/
theorem actn3_stage (o : Option String) :
    (o.bind (recognized_insight "ACTN3")).toList
      = (if o = some "XX" then [actn3_xx_insight]
         else if o = some "RR" then [actn3_rr_insight] else []) := by
  rcases o with _ | s
  · simp
  · by_cases h1 : s = "XX"
    · simp [h1, recognized_insight]
    · by_cases h2 : s = "RR" <;> simp [h1, h2, recognized_insight]

/-! Claim theorems. -/

/-- Claim C1: for every well-formed (history, genotype) input the alert
classifier returns exactly one category, chosen by first-match-wins
evaluation in the order empty-history/no-data, inflammation, circadian,
nutrition, airway, optimal; it never faults (the pure function below
never reaches the `error` category) and, being a function, never returns
more than one category. -/
theorem generate_alert_first_match_totality :
    ∀ (aid : String) (df : List Obs) (g : List (String × String)),
      (generate_alert aid df g).type = classify_spec df
      ∧ (generate_alert aid df g).type ∈
          [AlertType.no_data, .inflammation, .circadian, .nutrition, .airway, .green] := by
  intro aid df g
  cases hrev : df.reverse with
  | nil => simp [generate_alert, classify_spec, hrev]
  | cons latest rest =>
      simp only [generate_alert, classify_spec, hrev, first_match]
      unfold generate_alert_body
      constructor
      · split_ifs <;> simp
      · split_ifs <;> simp

/-- Claim C2, counterexample: with a two-observation history whose
previous HRV is 0 and whose latest HRV is 30 (below 40), `hrv_drop` is
false, refuting the claimed absolute fallback `latest < 40`; likewise
with previous RHR 0 and latest RHR 80 (above 70), `rhr_rise` is false,
refuting the claimed fallback `latest > 70`. -/
theorem absolute_fallback_counterexample :
    hrv_drop (some zero_prev_obs) low_hrv_high_rhr_obs = false
    ∧ safe_get_value low_hrv_high_rhr_obs.hrv_night 50 < 40
    ∧ ¬(hrv_drop (some zero_prev_obs) low_hrv_high_rhr_obs = true
        ↔ safe_get_value low_hrv_high_rhr_obs.hrv_night 50 < 40)
    ∧ rhr_rise (some zero_prev_obs) low_hrv_high_rhr_obs = false
    ∧ safe_get_value low_hrv_high_rhr_obs.resting_hr 60 > 70
    ∧ ¬(rhr_rise (some zero_prev_obs) low_hrv_high_rhr_obs = true
        ↔ safe_get_value low_hrv_high_rhr_obs.resting_hr 60 > 70) := by
  simp [hrv_drop, rhr_rise, zero_prev_obs, low_hrv_high_rhr_obs, safe_get_value]
  norm_num

/-- Claim C2, amended: for every history with at least two observations,
a previous HRV value of zero or less forces `hrv_drop` to false (the
relative test is disabled and no absolute fallback applies), and a
previous RHR value of zero or less forces `rhr_rise` to false. -/
theorem nonpositive_prev_disables_trend_flags :
    ∀ (prev latest : Obs),
      (safe_get_value prev.hrv_night 50 ≤ 0 → hrv_drop (some prev) latest = false)
      ∧ (safe_get_value prev.resting_hr 60 ≤ 0 → rhr_rise (some prev) latest = false) := by
  intro prev latest
  constructor <;> intro h <;> simp [hrv_drop, rhr_rise] <;> intro hpos <;>
    exact absurd hpos (not_lt.mpr h)

/-- Claim C2, witness: the amended theorem applied to the observations
with previous HRV 0 / RHR 0 and latest HRV 30 / RHR 80. -/
theorem nonpositive_prev_disables_trend_flags_witness :
    hrv_drop (some zero_prev_obs) low_hrv_high_rhr_obs = false
    ∧ rhr_rise (some zero_prev_obs) low_hrv_high_rhr_obs = false :=
  ⟨(nonpositive_prev_disables_trend_flags zero_prev_obs low_hrv_high_rhr_obs).1
      (by norm_num [zero_prev_obs, safe_get_value]),
   (nonpositive_prev_disables_trend_flags zero_prev_obs low_hrv_high_rhr_obs).2
      (by norm_num [zero_prev_obs, safe_get_value])⟩

/-- Claim C3: for every value and every metric with a configured row,
the zone classifier agrees with the spec-side band-precedence evaluator:
all critical ranges (primary and secondary) are evaluated first, then
all caution ranges, then the single optimal range, each as inclusive
bounds, the first containing group winning, and unknown when no
configured range contains the value.  Critical therefore wins over
caution, and caution over optimal, on overlapping configurations. -/
theorem get_zone_status_band_precedence :
    ∀ (v : ℚ) (metric_name : String) (thresholds : List ThresholdRow) (row : ThresholdRow),
      (thresholds.filter (fun r => r.metric_name == metric_name)).head? = some row →
      get_zone_status (some v) metric_name thresholds = zone_spec v row := by
  intro v name ts row h
  simp only [get_zone_status, h, zone_spec, critical_ranges, caution_ranges, optimal_ranges,
    band_ranges_any, isSome_and_in_bounds]
  cases in_bounds v row.red_low row.red_high <;>
    cases in_bounds v row.red_low2 row.red_high2 <;>
    cases in_bounds v row.yellow_low row.yellow_high <;>
    cases in_bounds v row.yellow_low2 row.yellow_high2 <;>
    cases in_bounds v row.green_low row.green_high <;>
    simp [in_bounds]

/-- Claim C3, witness: the precedence theorem applied to the configured
REM-sleep row at value 28. -/
theorem get_zone_status_band_precedence_witness :
    (([rem_sleep_pct_row].filter (fun r => r.metric_name == "rem_sleep_pct")).head?
        = some rem_sleep_pct_row)
    ∧ get_zone_status (some 28) "rem_sleep_pct" [rem_sleep_pct_row]
        = zone_spec 28 rem_sleep_pct_row :=
  ⟨by simp [rem_sleep_pct_row],
   get_zone_status_band_precedence 28 "rem_sleep_pct" [rem_sleep_pct_row] rem_sleep_pct_row
     (by simp [rem_sleep_pct_row])⟩

/-- Claim C4: any fault raised during alert evaluation is caught at the
`try/except` boundary and converted to an alert of category `error`
whose cause embeds the fault description truncated to at most 50
characters; the zone classifier likewise converts any internal fault to
the `error` status.  Faults are modelled as `Except.error` values; the
boundary functions are total, so no fault propagates to the caller. -/
theorem error_boundary_truncation :
    ∀ (e z : List Char),
      (generate_alert_caught (.error e)).type = .error
      ∧ (generate_alert_caught (.error e)).cause = .error_msg (e.take 50)
      ∧ (e.take 50).length ≤ 50
      ∧ get_zone_status_caught (.error z) = .error := by
  intro e z
  refine ⟨rfl, rfl, ?_, rfl⟩
  simp [List.length_take]

/-- Claim C5: a single-observation history reaches the rule chain with
no previous observation, so `hrv_drop` holds exactly when the latest HRV
(after default substitution) is below 40 and `rhr_rise` exactly when the
latest RHR is above 70; the relative comparisons are never applied. -/
theorem single_observation_absolute_thresholds :
    ∀ (aid : String) (g : List (String × String)) (o : Obs),
      generate_alert aid [o] g = generate_alert_body none o
      ∧ (hrv_drop none o = true ↔ safe_get_value o.hrv_night 50 < 40)
      ∧ (rhr_rise none o = true ↔ safe_get_value o.resting_hr 60 > 70) := by
  intro aid g o
  refine ⟨rfl, ?_, ?_⟩ <;> simp [hrv_drop, rhr_rise]

/-- Claim C6: each metric absent from the latest observation is replaced
by its fixed default before flag computation — HRV 50, RHR 60,
temperature 36.5, SpO2 97, deep-sleep 20, REM-sleep 20, duration 8,
respiratory rate 15 — so removing any such field leaves the alert
unchanged from the explicit-default observation; an absent sleep-onset
time simply makes `sleep_late` false; and the classifier body always
returns one of the five rule categories (never `error`). -/
theorem missing_metric_default_substitution :
    ∀ (p : Option Obs) (o : Obs),
      generate_alert_body p { o with hrv_night := none }
        = generate_alert_body p { o with hrv_night := some 50 }
      ∧ generate_alert_body p { o with resting_hr := none }
        = generate_alert_body p { o with resting_hr := some 60 }
      ∧ generate_alert_body p { o with temp_trend_c := none }
        = generate_alert_body p { o with temp_trend_c := some 36.5 }
      ∧ generate_alert_body p { o with spo2_night := none }
        = generate_alert_body p { o with spo2_night := some 97 }
      ∧ generate_alert_body p { o with deep_sleep_pct := none }
        = generate_alert_body p { o with deep_sleep_pct := some 20 }
      ∧ generate_alert_body p { o with rem_sleep_pct := none }
        = generate_alert_body p { o with rem_sleep_pct := some 20 }
      ∧ generate_alert_body p { o with sleep_duration_h := none }
        = generate_alert_body p { o with sleep_duration_h := some 8 }
      ∧ generate_alert_body p { o with resp_rate_night := none }
        = generate_alert_body p { o with resp_rate_night := some 15 }
      ∧ sleep_late { o with sleep_onset_time := none } = false
      ∧ (generate_alert_body p o).type ∈
          [AlertType.inflammation, .circadian, .nutrition, .airway, .green] := by
  intro p o
  obtain ⟨a, b, c, d, e, f, g', h', i⟩ := o
  refine ⟨rfl, rfl, rfl, rfl, rfl, rfl, rfl, rfl, rfl, ?_⟩
  unfold generate_alert_body
  split_ifs <;> simp

/-- Claim C7: on the two-observation history hrv 80→55, rhr 55→60,
temp 36.6→37.2, spo2 98→93 (all other metrics absent) every
inflammation flag holds — relative HRV drop 25/80 > 0.15, relative RHR
rise 5/55 > 0.05, temperature 37.2 ≥ 37.0, SpO2 93 ≤ 94 — and the alert
classifier returns category `inflammation`. -/
theorem inflammation_example_classified :
    hrv_drop (some inflammation_example_prev) inflammation_example_latest = true
    ∧ rhr_rise (some inflammation_example_prev) inflammation_example_latest = true
    ∧ temp_high inflammation_example_latest = true
    ∧ spo2_low inflammation_example_latest = true
    ∧ (generate_alert "alex" [inflammation_example_prev, inflammation_example_latest] []).type
        = .inflammation := by
  refine ⟨?_, ?_, ?_, ?_, ?_⟩ <;>
    simp [generate_alert, generate_alert_body, hrv_drop, rhr_rise, temp_high, spo2_low,
      safe_get_value, inflammation_example_prev, inflammation_example_latest] <;>
    norm_num

/-- Claim C8: a REM-sleep percentage of 28 against the configured row
(critical 0-15 and 31-100, caution 16-19 and 26-30, optimal 20-25) is
classified caution ("🟡 Yellow"), by matching the secondary,
non-contiguous caution band 26-30. -/
theorem rem_zone_secondary_caution_band :
    get_zone_status (some 28) "rem_sleep_pct" [rem_sleep_pct_row] = .yellow
    ∧ in_bounds 28 rem_sleep_pct_row.yellow_low2 rem_sleep_pct_row.yellow_high2 = true := by
  constructor
  · simp [get_zone_status, rem_sleep_pct_row, in_bounds]
    norm_num
  · simp [rem_sleep_pct_row, in_bounds]
    norm_num

/-- Claim C9: the genetic annotator emits at most one annotation per
recognized gene and only for the recognized genotype labels (PER3 long
or short, CLOCK AA, ACTN3 XX or RR), nothing for unrecognized or absent
genotypes, in the fixed gene-check order PER3, CLOCK, ACTN3: it equals
the spec-side annotator that walks that fixed order, and its output
depends only on the genotypes looked up for those three genes, not on
the insertion order of the map. -/
theorem genetic_insights_fixed_order :
    ∀ (g g₂ : List (String × String)),
      genetic_insights g = annotate_spec g
      ∧ (dict_get g "PER3" = dict_get g₂ "PER3" →
         dict_get g "CLOCK" = dict_get g₂ "CLOCK" →
         dict_get g "ACTN3" = dict_get g₂ "ACTN3" →
         genetic_insights g = genetic_insights g₂) := by
  intro g g₂
  constructor
  · rw [annotate_spec, filterMap_three, per3_stage, clock_stage, actn3_stage,
      genetic_insights]
  · intro h1 h2 h3
    simp only [genetic_insights, h1, h2, h3]

/-- Claim C9, witness: the theorem applied to two insertion orders of
the same PER3-long, CLOCK-AA genotype map. -/
theorem genetic_insights_fixed_order_witness :
    genetic_insights [("PER3", "long"), ("CLOCK", "AA")]
      = annotate_spec [("PER3", "long"), ("CLOCK", "AA")]
    ∧ genetic_insights [("PER3", "long"), ("CLOCK", "AA")]
      = genetic_insights [("CLOCK", "AA"), ("PER3", "long")] :=
  ⟨(genetic_insights_fixed_order [("PER3", "long"), ("CLOCK", "AA")]
      [("CLOCK", "AA"), ("PER3", "long")]).1,
   (genetic_insights_fixed_order [("PER3", "long"), ("CLOCK", "AA")]
      [("CLOCK", "AA"), ("PER3", "long")]).2 (by decide) (by decide) (by decide)⟩

/-- Claim C10: the alert classification result does not depend on the
genotype map — for every athlete identifier, history, and pair of
genotype maps the classifier returns identical alert records, the
genotype argument being accepted but never read. -/
theorem generate_alert_genotype_noninterference :
    ∀ (aid : String) (df : List Obs) (g₁ g₂ : List (String × String)),
      generate_alert aid df g₁ = generate_alert aid df g₂ := by
  intro aid df g₁ g₂; rfl

end BIGenetics
